import Mathlib

/-!
Verification of the SmartPoint POS core: sale computation, stock ledger,
refunds, and revenue aggregation, shallowly embedded from the JavaScript
sources (`src/routes/sales_clean.js`, `src/routes/finance.js`, the Sale
model in `src/unnamed/part_003`, and `src/models/Item.js`).

Money amounts, prices, quantities and stock levels are JavaScript numbers;
the claims under study only involve exact arithmetic on them, so they are
modelled as rationals (`ℚ`).  Document ids are modelled as naturals.
Mongo collections are modelled as association lists from id to document;
`lookupId` is `findOne` by id and `updateId` is a save of the (single)
matched document.
-/

namespace SmartPoint

/-- Payment status enum of the Sale schema.  The stored strings are
"pending", "completed", "partial", "failed", "refunded"; the third one is
named `partialPaid` here. -/
inductive PaymentStatus where
  | pending
  | completed
  | partialPaid
  | failed
  | refunded
deriving DecidableEq, Repr

/-- Actor role from `req.user.role`: the routes branch on "manager",
"cashier", and a final `else` for any other role. -/
inductive Role where
  | manager
  | cashier
  | other
deriving DecidableEq, Repr

/-- A stocked product (`src/models/Item.js`): the fields the core logic
reads.  `stock`/`minStock` carry the schema defaults 0. -/
structure Item where
  name : String
  price : ℚ
  stock : ℚ
  minStock : ℚ
  isActive : Bool
  userId : ℕ
  managerId : ℕ
deriving DecidableEq, Repr

/-- A sale line item (`saleItemSchema` in the Sale model). -/
structure SaleLine where
  item : ℕ
  name : String
  price : ℚ
  quantity : ℚ
  subtotal : ℚ
deriving DecidableEq, Repr

/-- A sale document (`saleSchema` in `src/unnamed/part_003`).  `change`
is `none` when the field is undefined (the pre-save hook only computes it
in that case); `managerId` is `none` when the route never assigned it
(the schema then rejects the document at save time). -/
structure Sale where
  receiptNumber : String
  items : List SaleLine
  subtotal : ℚ
  tax : ℚ
  discount : ℚ
  total : ℚ
  paymentStatus : PaymentStatus
  paidAmount : ℚ
  change : Option ℚ
  notes : Option String
  userId : ℕ
  managerId : Option ℕ
  cashierId : Option ℕ
  saleDate : ℤ
deriving DecidableEq, Repr

/-- The slice of a user document the core logic reads: the role and the
cashier's link to a manager. -/
structure User where
  role : Role
  managerId : Option ℕ
deriving DecidableEq, Repr

/-- An item collection: id-keyed association list. -/
abbrev ItemStore := List (ℕ × Item)

/-- A sale collection: id-keyed association list. -/
abbrev SaleStore := List (ℕ × Sale)

/-- A user collection: id-keyed association list. -/
abbrev UserStore := List (ℕ × User)

/-- `findOne` / `findById` by id: the first entry with the given key. -/
def lookupId {α : Type} : List (ℕ × α) → ℕ → Option α
  | [], _ => none
  | p :: rest, i => if p.1 = i then some p.2 else lookupId rest i

/-- Saving one matched document: replace the first entry with the given
key (ids are unique in a real collection), leave the rest alone. -/
def updateId {α : Type} : List (ℕ × α) → ℕ → (α → α) → List (ℕ × α)
  | [], _, _ => []
  | p :: rest, i, f =>
      if p.1 = i then (p.1, f p.2) :: rest else p :: updateId rest i f

/-- JavaScript `x || d` on a number: `0` is falsy. -/
def jsOrQ (x d : ℚ) : ℚ := if x = 0 then d else x

/-- JavaScript `x || d` where `x` may be undefined. -/
def jsOrOptQ (x : Option ℚ) (d : ℚ) : ℚ :=
  match x with
  | some v => jsOrQ v d
  | none => d

/-- JavaScript `s || d` on a string: the empty string is falsy. -/
def jsOrOptStr (x : Option String) (d : String) : String :=
  match x with
  | some s => if s = "" then d else s
  | none => d

/-- Payment-status derivation of the Sale pre-save hook (part_003 lines
173-182): `pending` when nothing was paid, else `completed` when the paid
amount covers the (recomputed) total, else "partial". -/
def derivePaymentStatus (paid tot : ℚ) : PaymentStatus :=
  if paid = 0 then .pending
  else if paid ≥ tot then .completed
  else .partialPaid

/-- The Sale schema pre-save middleware (part_003 lines 161-188): it
recomputes `subtotal` from the line items and `total` from
`subtotal + tax - discount`, fills `change` only when the field is
undefined, and rederives `paymentStatus` from `paidAmount`
unconditionally (`paidAmount` always carries the schema default 0, so its
`!== undefined` guard is always true). -/
def saveHook (s : Sale) : Sale :=
  let sub := (s.items.map SaleLine.subtotal).sum
  let tot := sub + s.tax - s.discount
  let ch : Option ℚ :=
    match s.change with
    | none => some (max 0 (s.paidAmount - tot))
    | some c => some c
  { s with
    subtotal := sub
    total := tot
    change := ch
    paymentStatus := derivePaymentStatus s.paidAmount tot }

/-- The schema validators the core flows can hit: the `min: 0` bounds on
the money fields, `min: 1` on line quantities, and the `required`
manager reference. -/
def validSale (s : Sale) : Bool :=
  decide (0 ≤ s.subtotal) && decide (0 ≤ s.tax) && decide (0 ≤ s.discount) &&
  decide (0 ≤ s.total) && decide (0 ≤ s.paidAmount) &&
  (match s.change with
   | some c => decide (0 ≤ c)
   | none => true) &&
  s.managerId.isSome &&
  s.items.all (fun l =>
    decide (0 ≤ l.price) && decide (1 ≤ l.quantity) && decide (0 ≤ l.subtotal))

/-- `sale.save()`: run the pre-save middleware, then validate; a failed
validation persists nothing. -/
def saveSale (s : Sale) : Option Sale :=
  let s1 := saveHook s
  if validSale s1 then some s1 else none

/-- Error outcomes of the checkout and item routes (§7 taxonomy). -/
inductive CheckoutErr where
  | invalidInput
  | invalidLine
  | itemNotFound (productId : ℕ)
  | insufficientStock (name : String) (available requested : ℚ)
  | notLinked
  | saveFailed
deriving DecidableEq, Repr

/-- One entry of the checkout request body's `items` array. -/
structure ReqLine where
  productId : ℕ
  name : Option String
  price : Option ℚ
  quantity : ℚ
  subtotal : Option ℚ
deriving DecidableEq, Repr

/-- The checkout request body (`POST /api/sales/checkout`): `total` and
`paidAmount` may be absent (rejected), `tax`/`discount` default to 0. -/
structure CheckoutReq where
  items : List ReqLine
  total : Option ℚ
  paidAmount : Option ℚ
  change : Option ℚ
  tax : ℚ
  discount : ℚ
  cashierId : Option ℕ
  receiptNumber : Option String
  notes : Option String
deriving DecidableEq, Repr

/-- The store effect of one successfully processed checkout line
(`item.stock -= quantity; await item.save()`). -/
def decLine (st : ItemStore) (l : ReqLine) : ItemStore :=
  updateId st l.productId (fun x => { x with stock := x.stock - l.quantity })

/-- One iteration of the checkout item loop (sales_clean.js lines
440-503): reject a line without a truthy `productId` or a positive
`quantity`; `findOne` the item by id restricted to the requester's own
`userId` and `isActive`; reject on missing item or short stock; otherwise
honour a truthy client price/subtotal (falling back to
`item.price` / `price * quantity`) and decrement the item's stock at
once. -/
def processLine (uid : ℕ) (st : ItemStore) (l : ReqLine) :
    Except CheckoutErr (ItemStore × SaleLine) :=
  if l.productId = 0 ∨ l.quantity ≤ 0 then .error .invalidLine
  else
    match lookupId st l.productId with
    | none => .error (.itemNotFound l.productId)
    | some it =>
        if it.userId = uid ∧ it.isActive = true then
          if it.stock < l.quantity then
            .error (.insufficientStock it.name it.stock l.quantity)
          else
            let itemPrice := jsOrOptQ l.price it.price
            let itemSubtotal := jsOrOptQ l.subtotal (itemPrice * l.quantity)
            .ok (decLine st l,
              { item := l.productId
                name := jsOrOptStr l.name it.name
                price := itemPrice
                quantity := l.quantity
                subtotal := itemSubtotal })
        else .error (.itemNotFound l.productId)

/-- The checkout item loop: left to right over the request lines,
threading the item store; a failing line stops the loop, keeping the
store mutations already committed by the earlier iterations.  Also
returns the accumulated sale lines and `calculatedSubtotal`. -/
def processItems (uid : ℕ) : ItemStore → List ReqLine →
    ItemStore × Except CheckoutErr (List SaleLine × ℚ)
  | st, [] => (st, .ok ([], 0))
  | st, l :: ls =>
      match processLine uid st l with
      | .error e => (st, .error e)
      | .ok (st1, sl) =>
          match processItems uid st1 ls with
          | (st2, .error e) => (st2, .error e)
          | (st2, .ok (sls, sub)) => (st2, .ok (sl :: sls, sl.subtotal + sub))

/-- Owner resolution after the item loop (sales_clean.js lines 505-521):
a manager owns the sale (request `cashierId` passed through); a cashier
must be linked to a manager (else the 400 "not properly linked" error);
any other role leaves `managerId` unassigned. -/
def resolveScopeIds (users : UserStore) (role : Role) (uid : ℕ)
    (reqCashierId : Option ℕ) : Except CheckoutErr (Option ℕ × Option ℕ) :=
  match role with
  | .manager => .ok (some uid, reqCashierId)
  | .cashier =>
      match lookupId users uid with
      | some u =>
          match u.managerId with
          | some m => .ok (some m, some uid)
          | none => .error .notLinked
      | none => .error .notLinked
  | .other => .ok (none, none)

/-- `POST /api/sales/checkout` (sales_clean.js lines 399-583).  `now` is
the request time and `fresh` the generated receipt number.  The returned
store reflects every stock decrement committed before a failure; the
route's own payment-status guess and the client-supplied `total` are
then partly overwritten by the pre-save hook inside `saveSale`. -/
def checkout (users : UserStore) (role : Role) (uid : ℕ) (now : ℤ)
    (fresh : String) (st : ItemStore) (req : CheckoutReq) :
    ItemStore × Except CheckoutErr Sale :=
  if req.items = [] then (st, .error .invalidInput)
  else
    match req.total, req.paidAmount with
    | some t, some p =>
        match processItems uid st req.items with
        | (st1, .error e) => (st1, .error e)
        | (st1, .ok (saleItems, calcSub)) =>
            match resolveScopeIds users role uid req.cashierId with
            | .error e => (st1, .error e)
            | .ok (mgrId, finalCashier) =>
                let finalTotal := jsOrQ t calcSub
                let finalPaid := jsOrQ p 0
                let finalChange :=
                  jsOrOptQ req.change (max 0 (finalPaid - finalTotal))
                let status : PaymentStatus :=
                  if finalPaid < finalTotal then .partialPaid
                  else if finalPaid = 0 then .pending
                  else .completed
                let sale : Sale :=
                  { receiptNumber := jsOrOptStr req.receiptNumber fresh
                    items := saleItems
                    subtotal := calcSub
                    tax := req.tax
                    discount := req.discount
                    total := finalTotal
                    paymentStatus := status
                    paidAmount := finalPaid
                    change := some finalChange
                    notes := req.notes
                    userId := uid
                    managerId := mgrId
                    cashierId := finalCashier
                    saleDate := now }
                match saveSale sale with
                | some s2 => (st1, .ok s2)
                | none => (st1, .error .saveFailed)
    | _, _ => (st, .error .invalidInput)

/-- Error outcome of the refund route: the 404 "Sale not found or cannot
be refunded", plus a failed re-save. -/
inductive RefundErr where
  | notRefundable
  | saveFailed
deriving DecidableEq, Repr

/-- The role-based ownership filter the sale routes put in their queries
(manager: `managerId`; cashier: `cashierId`; anything else: `userId`). -/
def scopeMatch (role : Role) (uid : ℕ) (s : Sale) : Bool :=
  match role with
  | .manager => s.managerId == some uid
  | .cashier => s.cashierId == some uid
  | .other => s.userId == uid

/-- Refund's note update (sales_clean.js line 613): append the reason,
starting fresh when `notes` is undefined or empty (falsy). -/
def appendReason (notes : Option String) (reason : String) : Option String :=
  match notes with
  | some n =>
      if n = "" then some ("Refund Reason: " ++ reason)
      else some (n ++ "\n" ++ "Refund Reason: " ++ reason)
  | none => some ("Refund Reason: " ++ reason)

/-- Refund's in-memory update of the matched sale (sales_clean.js lines
611-613): mark it refunded and append the reason to the notes. -/
def refundUpdate (s : Sale) (reason : String) : Sale :=
  { s with paymentStatus := .refunded, notes := appendReason s.notes reason }

/-- Refund's stock restore for one sale line (sales_clean.js lines
617-623): `findById` with no scope filter, increment when the item still
exists, silently skip otherwise. -/
def restoreLine (st : ItemStore) (l : SaleLine) : ItemStore :=
  updateId st l.item (fun x => { x with stock := x.stock + l.quantity })

/-- `PUT /api/sales/:id/refund` (sales_clean.js lines 586-638): findOne
on the id with `paymentStatus: completed` and the role scope filter;
on a match set the status to refunded, append the reason to the notes,
re-save the sale (through the pre-save hook), then restore stock for
every line. -/
def refund (role : Role) (uid : ℕ) (sales : SaleStore) (items : ItemStore)
    (sid : ℕ) (reason : String) :
    SaleStore × ItemStore × Except RefundErr Sale :=
  match lookupId sales sid with
  | some s =>
      if scopeMatch role uid s ∧ s.paymentStatus = .completed then
        match saveSale (refundUpdate s reason) with
        | some s2 =>
            (updateId sales sid (fun _ => s2),
             s2.items.foldl restoreLine items, .ok s2)
        | none => (sales, items, .error .saveFailed)
      else (sales, items, .error .notRefundable)
  | none => (sales, items, .error .notRefundable)

/-- Item-collection filter the role-scoped item endpoints build
(finance.js `GET /api/items` lines 1544-1566 and the stock route lines
2121-2138): a manager sees the items of their own manager pool; a cashier
resolves the linked manager first (failing when unlinked) and then sees
that manager's pool; any other role sees items it created itself.  All
queries require `isActive`. -/
def roleItemQuery (users : UserStore) (role : Role) (uid : ℕ) :
    Except CheckoutErr (Item → Bool) :=
  match role with
  | .manager => .ok (fun it => it.managerId == uid && it.isActive)
  | .cashier =>
      match lookupId users uid with
      | some u =>
          match u.managerId with
          | some m => .ok (fun it => it.managerId == m && it.isActive)
          | none => .error .notLinked
      | none => .error .notLinked
  | .other => .ok (fun it => it.userId == uid && it.isActive)

/-- `POST /api/items/:id/stock` (finance.js lines 2110-2177): reject a
missing or negative quantity, resolve the role query, fetch the item,
then `set`/`add`/`subtract` the parsed (truncated) quantity — `subtract`
clamps at 0, unknown operations fall through to `set`. -/
def adjustStock (users : UserStore) (role : Role) (uid : ℕ) (st : ItemStore)
    (iid : ℕ) (q : ℚ) (op : String) : ItemStore × Except CheckoutErr Item :=
  if q < 0 then (st, .error .invalidInput)
  else
    match roleItemQuery users role uid with
    | .error e => (st, .error e)
    | .ok qfilter =>
        match lookupId st iid with
        | some it =>
            if qfilter it then
              let qi : ℚ := ((Int.floor q : ℤ) : ℚ)
              let newStock : ℚ :=
                if op = "add" then it.stock + qi
                else if op = "subtract" then max 0 (it.stock - qi)
                else qi
              (updateId st iid (fun x => { x with stock := newStock }),
               .ok { it with stock := newStock })
            else (st, .error (.itemNotFound iid))
        | none => (st, .error (.itemNotFound iid))

/-- Sale-collection filter of `GET /api/sales` (sales_clean.js lines
33-44): a manager matches on `managerId` (optionally narrowed to one
cashier); a cashier matches only on their own `cashierId`; any other
role matches on `userId`. -/
def salesListQuery (role : Role) (uid : ℕ) (reqCashierId : Option ℕ)
    (s : Sale) : Bool :=
  match role with
  | .manager =>
      s.managerId == some uid &&
      (match reqCashierId with
       | some c => s.cashierId == some c
       | none => true)
  | .cashier => s.cashierId == some uid
  | .other => s.userId == uid

/-- The `$match` user filter of the home dashboard (finance.js lines
132-158): managers match their pool, every other role matches sales it
created or rang itself. -/
def homeUserFilter (role : Role) (uid : ℕ) (s : Sale) : Bool :=
  match role with
  | .manager => s.managerId == some uid
  | _ => s.userId == uid || s.cashierId == some uid

/-- Inclusive `$gte`/`$lte` date-window test on the sale date. -/
def inWindow (a b : ℤ) (d : ℤ) : Bool := decide (a ≤ d) && decide (d ≤ b)

/-- The matching sale set of the home dashboard's today aggregation:
scope filter plus inclusive day window. -/
def homeMatches (role : Role) (uid : ℕ) (a b : ℤ) (sales : List Sale) :
    List Sale :=
  sales.filter (fun s => homeUserFilter role uid s && inWindow a b s.saleDate)

/-- Accumulator of the home dashboard's `$group` stage (finance.js lines
169-215). -/
structure TodayAgg where
  totalRevenue : ℚ
  totalSales : ℚ
  totalTransactions : ℕ
  totalItems : ℚ
  totalOutstanding : ℚ
  partialPaymentsCount : ℕ
deriving DecidableEq, Repr

/-- One document's contribution to the home dashboard `$group` stage:
`$sum` of `paidAmount`, `total`, 1, the line quantities, the clamped
outstanding balance, and the partial-payment indicator. -/
def todayAggStep (acc : TodayAgg) (s : Sale) : TodayAgg :=
  { totalRevenue := acc.totalRevenue + s.paidAmount
    totalSales := acc.totalSales + s.total
    totalTransactions := acc.totalTransactions + 1
    totalItems := acc.totalItems + (s.items.map SaleLine.quantity).sum
    totalOutstanding := acc.totalOutstanding + max 0 (s.total - s.paidAmount)
    partialPaymentsCount := acc.partialPaymentsCount +
      (if 0 < s.paidAmount ∧ s.paidAmount < s.total then 1 else 0) }

/-- The empty `$group` accumulator. -/
def emptyAgg : TodayAgg :=
  { totalRevenue := 0, totalSales := 0, totalTransactions := 0,
    totalItems := 0, totalOutstanding := 0, partialPaymentsCount := 0 }

/-- The home dashboard's today aggregation over the matched sale set. -/
def homeTodayAgg (sales : List Sale) : TodayAgg :=
  sales.foldl todayAggStep emptyAgg

/-- `calculateGrowth` (finance.js lines 46-49): percentage change with
the divide-by-zero guard — 100 for growth from zero to something
positive, 0 for zero to zero. -/
def calculateGrowth (current previous : ℚ) : ℚ :=
  if previous = 0 then (if current > 0 then 100 else 0)
  else (current - previous) / previous * 100

/-- The home dashboard's day-over-day `salesGrowth` (finance.js lines
496-497): an inline ternary that yields 0 whenever yesterday's revenue
is not positive. -/
def homeSalesGrowth (todayRevenue yesterdayRevenue : ℚ) : ℚ :=
  if yesterdayRevenue > 0 then
    (todayRevenue - yesterdayRevenue) / yesterdayRevenue * 100
  else 0

/-- Modelled from the spec: the growth rule as §4.3 words it —
`(current − previous) / previous × 100`, defined as 0 when current = 0
(and previous = 0), and 100 when previous = 0 and current > 0. -/
def specGrowthRule (current previous : ℚ) : ℚ :=
  if previous = 0 then (if current > 0 then 100 else 0)
  else (current - previous) / previous * 100

/-- All stock quantities of an item collection are non-negative. -/
def itemsNonneg (st : ItemStore) : Prop := ∀ p ∈ st, 0 ≤ p.2.stock

/-- Every sale of a collection passes schema validation. -/
def salesValid (sales : SaleStore) : Prop := ∀ p ∈ sales, validSale p.2 = true

/-- Every sale of a collection is a persisted document, i.e. a fixpoint
of `sale.save()` (the state any document read back from Mongo is in). -/
def salesPersisted (sales : SaleStore) : Prop :=
  ∀ p ∈ sales, saveSale p.2 = some p.2

/-- Total quantity the lines of a sale record against one item id. -/
def sumQtyFor (ls : List SaleLine) (i : ℕ) : ℚ :=
  ((ls.filter (fun l => l.item == i)).map SaleLine.quantity).sum

/-- Sample stocked item owned by manager 10: 5 in stock at price 10. -/
def itemA : Item :=
  { name := "A", price := 10, stock := 5, minStock := 0, isActive := true,
    userId := 10, managerId := 10 }

/-- Sample stocked item owned by manager 10: 3 in stock at price 4. -/
def itemB : Item :=
  { name := "B", price := 4, stock := 3, minStock := 0, isActive := true,
    userId := 10, managerId := 10 }

/-- Two-item inventory for the checkout scenarios. -/
def st0 : ItemStore := [(1, itemA), (2, itemB)]

/-- Empty user collection (manager flows never consult it). -/
def users0 : UserStore := []

/-- Request line: one unit of item 1, everything else server-computed. -/
def lineA : ReqLine :=
  { productId := 1, name := none, price := none, quantity := 1, subtotal := none }

/-- Request line asking for 10 units of item 2 (only 3 in stock). -/
def lineB : ReqLine :=
  { productId := 2, name := none, price := none, quantity := 10, subtotal := none }

/-- Checkout request whose second line must fail on stock. -/
def reqC1 : CheckoutReq :=
  { items := [lineA, lineB], total := some 10, paidAmount := some 10,
    change := none, tax := 0, discount := 0, cashierId := none,
    receiptNumber := none, notes := none }

/-- One-item inventory for the client-supplied-change scenario. -/
def st4 : ItemStore := [(1, itemA)]

/-- Request line: two units of item 1. -/
def lineC : ReqLine :=
  { productId := 1, name := none, price := none, quantity := 2, subtotal := none }

/-- Checkout request paying 20 on a 20 total but declaring `change: 7`. -/
def reqC4 : CheckoutReq :=
  { items := [lineC], total := some 20, paidAmount := some 20,
    change := some 7, tax := 0, discount := 0, cashierId := none,
    receiptNumber := none, notes := none }

/-- The sale the `reqC4` checkout persists: the client-declared change 7
is stored as-is even though paidAmount equals the total. -/
def saleC4 : Sale :=
  { receiptNumber := "R1",
    items := [{ item := 1, name := "A", price := 10, quantity := 2, subtotal := 20 }],
    subtotal := 20, tax := 0, discount := 0, total := 20,
    paymentStatus := .completed, paidAmount := 20, change := some 7,
    notes := none, userId := 10, managerId := some 10, cashierId := none,
    saleDate := 0 }

/-- A fully paid, persisted sale of two units of item 1 (a fixpoint of
`saveSale`). -/
def completedSale : Sale :=
  { receiptNumber := "11112222",
    items := [{ item := 1, name := "A", price := 10, quantity := 2, subtotal := 20 }],
    subtotal := 20, tax := 0, discount := 0, total := 20,
    paymentStatus := .completed, paidAmount := 20, change := some 0,
    notes := none, userId := 1, managerId := some 1, cashierId := none,
    saleDate := 0 }

/-- Sale collection holding `completedSale` under id 100. -/
def sales0 : SaleStore := [(100, completedSale)]

/-- The sold item as it stands after the sale: 3 left in stock. -/
def itemA1 : Item :=
  { name := "A", price := 10, stock := 3, minStock := 0, isActive := true,
    userId := 1, managerId := 1 }

/-- Inventory for the refund scenario. -/
def items0 : ItemStore := [(1, itemA1)]

/-- Pre-persist sale document with tax 5, discount 2 and paid amount 15
(the §8 partial-payment scenario, plus tax and discount). -/
def sampleSale : Sale :=
  { receiptNumber := "33334444",
    items := [{ item := 1, name := "A", price := 10, quantity := 2, subtotal := 20 }],
    subtotal := 20, tax := 5, discount := 2, total := 23,
    paymentStatus := .pending, paidAmount := 15, change := none,
    notes := none, userId := 1, managerId := some 1, cashierId := none,
    saleDate := 0 }

/-- What `saveSale sampleSale` persists: recomputed totals, derived
change 0 and status "partial". -/
def sampleSaved : Sale :=
  { receiptNumber := "33334444",
    items := [{ item := 1, name := "A", price := 10, quantity := 2, subtotal := 20 }],
    subtotal := 20, tax := 5, discount := 2, total := 23,
    paymentStatus := .partialPaid, paidAmount := 15, change := some 0,
    notes := none, userId := 1, managerId := some 1, cashierId := none,
    saleDate := 0 }

/-- Dashboard scenario sale: 500 collected on an 800 bill. -/
def sale500 : Sale :=
  { receiptNumber := "55550001", items := [], subtotal := 800, tax := 0,
    discount := 0, total := 800, paymentStatus := .partialPaid,
    paidAmount := 500, change := some 0, notes := none, userId := 1,
    managerId := some 1, cashierId := none, saleDate := 3 }

/-- Dashboard scenario sale: 6000 collected in full. -/
def sale6000 : Sale :=
  { receiptNumber := "55550002", items := [], subtotal := 6000, tax := 0,
    discount := 0, total := 6000, paymentStatus := .completed,
    paidAmount := 6000, change := some 0, notes := none, userId := 1,
    managerId := some 1, cashierId := none, saleDate := 5 }

/-- User collection with cashier 2 linked to manager 1. -/
def users9 : UserStore := [(2, { role := .cashier, managerId := some 1 })]

/-- A sale in manager 1's pool rung by another cashier (id 3). -/
def saleX : Sale :=
  { receiptNumber := "77770001", items := [], subtotal := 0, tax := 0,
    discount := 0, total := 0, paymentStatus := .completed, paidAmount := 0,
    change := some 0, notes := none, userId := 3, managerId := some 1,
    cashierId := some 3, saleDate := 0 }

/-- An item of manager 1's inventory, created by the manager. -/
def itemX : Item :=
  { name := "X", price := 1, stock := 1, minStock := 0, isActive := true,
    userId := 1, managerId := 1 }

/-- Request line for `itemX` (stored under id 5). -/
def lineX : ReqLine :=
  { productId := 5, name := none, price := none, quantity := 1, subtotal := none }

/-- Inventory holding only `itemX`. -/
def stX : ItemStore := [(5, itemX)]

/-- Looking up after a single-document save: the saved key reads back the
updated value, every other key is untouched. -/
theorem lookupId_updateId {α : Type} (st : List (ℕ × α)) (i j : ℕ) (f : α → α) :
    lookupId (updateId st i f) j =
      if j = i then (lookupId st i).map f else lookupId st j := by
  induction st with
  | nil => simp [lookupId, updateId]
  | cons p rest ih =>
      by_cases hpi : p.1 = i
      · by_cases hji : j = i
        · subst hji
          simp [lookupId, updateId, hpi]
        · have hij : ¬ i = j := fun h => hji h.symm
          simp [lookupId, updateId, hpi, hji, hij]
      · by_cases hpj : p.1 = j
        · have hji : ¬ j = i := fun h => hpi (h ▸ hpj)
          simp [lookupId, updateId, hpi, hpj, hji]
        · simp [lookupId, updateId, hpi, hpj, ih]

/-- Every entry of a saved collection is an old entry, or the updated
image of the (first-)matched document. -/
theorem mem_updateId {α : Type} (st : List (ℕ × α)) (i : ℕ) (f : α → α) :
    ∀ p ∈ updateId st i f, p ∈ st ∨ ∃ v, lookupId st i = some v ∧ p = (i, f v) := by
  induction st with
  | nil => simp [updateId]
  | cons q rest ih =>
      intro p hp
      by_cases hqi : q.1 = i
      · simp only [updateId, if_pos hqi] at hp
        rcases List.mem_cons.mp hp with hp1 | hp1
        · exact Or.inr ⟨q.2, by simp [lookupId, hqi], by rw [hp1, hqi]⟩
        · exact Or.inl (List.mem_cons_of_mem q hp1)
      · simp only [updateId, if_neg hqi] at hp
        rcases List.mem_cons.mp hp with hp1 | hp1
        · exact Or.inl (by simp [hp1])
        · rcases ih p hp1 with h | ⟨v, hv, hpv⟩
          · exact Or.inl (List.mem_cons_of_mem q h)
          · exact Or.inr ⟨v, by simp [lookupId, hqi, hv], hpv⟩

/-- A successful lookup returns a document that is in the collection. -/
theorem lookupId_mem {α : Type} (st : List (ℕ × α)) (i : ℕ) (v : α)
    (h : lookupId st i = some v) : (i, v) ∈ st := by
  induction st with
  | nil => simp [lookupId] at h
  | cons p rest ih =>
      by_cases hpi : p.1 = i
      · simp only [lookupId, if_pos hpi] at h
        have hv : v = p.2 := (Option.some.inj h).symm
        subst hv
        subst hpi
        simp
      · simp only [lookupId, if_neg hpi] at h
        exact List.mem_cons_of_mem p (ih h)

/-- Loop equation: a failing line stops the loop with the store as it
stands. -/
theorem processItems_cons_err {uid : ℕ} {st : ItemStore} {l : ReqLine}
    {ls : List ReqLine} {e : CheckoutErr}
    (h : processLine uid st l = .error e) :
    processItems uid st (l :: ls) = (st, .error e) := by
  simp [processItems, h]

/-- Loop equation: a successful line threads the decremented store into
the rest of the loop. -/
theorem processItems_cons_ok {uid : ℕ} {st : ItemStore} {l : ReqLine}
    {ls : List ReqLine} {st1 : ItemStore} {sl : SaleLine}
    (h : processLine uid st l = .ok (st1, sl)) :
    processItems uid st (l :: ls) =
      (match processItems uid st1 ls with
       | (st2, .error e) => (st2, .error e)
       | (st2, .ok (sls, sub)) => (st2, .ok (sl :: sls, sl.subtotal + sub))) := by
  simp [processItems, h]

/-- Anatomy of a successful checkout line: the quantity was positive, the
item was found in the requester's own active inventory with enough
stock, and the store effect is exactly that item's decrement. -/
theorem processLine_ok {uid : ℕ} {st : ItemStore} {l : ReqLine}
    {st1 : ItemStore} {sl : SaleLine}
    (h : processLine uid st l = .ok (st1, sl)) :
    0 < l.quantity ∧ st1 = decLine st l ∧
    ∃ it, lookupId st l.productId = some it ∧ it.userId = uid ∧
      it.isActive = true ∧ l.quantity ≤ it.stock := by
  unfold processLine at h
  split at h
  · exact absurd h (by simp)
  next hguard =>
    push_neg at hguard
    cases hlk : lookupId st l.productId with
    | none => rw [hlk] at h; exact absurd h (by simp)
    | some it =>
        rw [hlk] at h
        split at h
        next heq => exact absurd heq (by simp)
        next it2 heq =>
          split at h
          next hown =>
            split at h
            · exact absurd h (by simp)
            next hstock =>
              have h2 := Except.ok.inj h
              rw [Prod.mk.injEq] at h2
              exact ⟨hguard.2, h2.1.symm, it2, heq, hown.1, hown.2,
                le_of_not_lt hstock⟩
          · exact absurd h (by simp)

/-- A successful checkout loop decrements the store line by line (a left
fold of the per-line decrements) and accumulates exactly the sum of the
produced sale-line subtotals. -/
theorem processItems_ok {uid : ℕ} {ls : List ReqLine} :
    ∀ {st st2 : ItemStore} {sls : List SaleLine} {sub : ℚ},
    processItems uid st ls = (st2, .ok (sls, sub)) →
    st2 = ls.foldl decLine st ∧ sub = (sls.map SaleLine.subtotal).sum := by
  induction ls with
  | nil =>
      intro st st2 sls sub h
      simp only [processItems, Prod.mk.injEq, Except.ok.injEq] at h
      obtain ⟨h1, h2, h3⟩ := h
      exact ⟨h1.symm, by simp [← h2, ← h3]⟩
  | cons l ls ih =>
      intro st st2 sls sub h
      cases hpl : processLine uid st l with
      | error e => rw [processItems_cons_err hpl] at h; exact absurd h (by simp)
      | ok pr =>
          obtain ⟨st1, sl⟩ := pr
          rw [processItems_cons_ok hpl] at h
          cases hpi : processItems uid st1 ls with
          | mk sta ra =>
              rw [hpi] at h
              cases ra with
              | error e => exact absurd h (by simp)
              | ok pr2 =>
                  obtain ⟨sls2, sub2⟩ := pr2
                  simp only [Prod.mk.injEq, Except.ok.injEq] at h
                  obtain ⟨h1, h2, h3⟩ := h
                  obtain ⟨hfold, hsum⟩ := ih hpi
                  obtain ⟨-, hdec, -⟩ := processLine_ok hpl
                  subst h1 hdec
                  refine ⟨by rw [List.foldl_cons, hfold], ?_⟩
                  rw [← h2, ← h3, hsum]
                  simp

/-- When the lines up to some point process fine and the next line
fails, the whole loop over the extended list fails with that error and
leaves the store exactly as the successful prefix left it: the earlier
decrements stay committed. -/
theorem processItems_append_fail {uid : ℕ} {pre : List ReqLine}
    {l : ReqLine} {post : List ReqLine} {e : CheckoutErr} :
    ∀ {st : ItemStore} {r : List SaleLine × ℚ},
    (processItems uid st pre).2 = .ok r →
    processLine uid (processItems uid st pre).1 l = .error e →
    processItems uid st (pre ++ l :: post) = ((processItems uid st pre).1, .error e) := by
  induction pre with
  | nil =>
      intro st r _ hfail
      simp only [processItems] at hfail
      rw [List.nil_append, processItems_cons_err hfail]
      simp [processItems]
  | cons a pre ih =>
      intro st r hpre hfail
      cases hpl : processLine uid st a with
      | error e2 =>
          rw [show (processItems uid st (a :: pre)).2 = .error e2 by
              rw [processItems_cons_err hpl]] at hpre
          exact absurd hpre (by simp)
      | ok pr =>
          obtain ⟨st1, sl⟩ := pr
          cases hpi : processItems uid st1 pre with
          | mk stp rp =>
              cases rp with
              | error e3 =>
                  rw [show (processItems uid st (a :: pre)).2 = .error e3 by
                      rw [@processItems_cons_ok uid st a pre st1 sl hpl, hpi]] at hpre
                  exact absurd hpre (by simp)
              | ok pr2 =>
                  obtain ⟨sls2, sub2⟩ := pr2
                  have hfst : (processItems uid st (a :: pre)).1 =
                      (processItems uid st1 pre).1 := by
                    rw [@processItems_cons_ok uid st a pre st1 sl hpl, hpi]
                  have hpre1 : (processItems uid st1 pre).2 = .ok (sls2, sub2) := by
                    rw [hpi]
                  have hfail1 : processLine uid (processItems uid st1 pre).1 l = .error e := by
                    rw [← hfst]; exact hfail
                  have hmain := ih hpre1 hfail1
                  rw [List.cons_append,
                      @processItems_cons_ok uid st a (pre ++ l :: post) st1 sl hpl,
                      hmain, hfst]

/-- A successful save returns the hook's output, and it validated. -/
theorem saveSale_eq {s s2 : Sale} (h : saveSale s = some s2) :
    s2 = saveHook s ∧ validSale (saveHook s) = true := by
  have h2 : (if validSale (saveHook s) = true then some (saveHook s) else none) = some s2 := h
  split at h2
  next hv => exact ⟨(Option.some.inj h2).symm, hv⟩
  · exact absurd h2 (by simp)

/-- A persisted document is a fixpoint of the pre-save hook and valid. -/
theorem saveSale_fixpoint {s : Sale} (h : saveSale s = some s) :
    saveHook s = s ∧ validSale s = true := by
  obtain ⟨h1, h2⟩ := saveSale_eq h
  exact ⟨h1.symm, by rw [h1]; exact h2⟩

/-- The pre-save hook reads neither the payment status nor the notes, so
changing only those fields changes only the notes of its output (it
overwrites the status either way). -/
theorem saveHook_status_notes (s : Sale) (x : PaymentStatus) (y : Option String) :
    saveHook { s with paymentStatus := x, notes := y } = { saveHook s with notes := y } := by
  cases s
  rfl

/-- Validation does not read the notes. -/
theorem validSale_notes (s : Sale) (y : Option String) :
    validSale { s with notes := y } = validSale s := by
  cases s
  rfl

/-- Re-saving a persisted sale with a new payment status and new notes
persists the new notes but silently rederives the payment status from
the money fields — the explicitly assigned status is lost. -/
theorem saveSale_statusOverwritten {s : Sale} (h : saveSale s = some s)
    (x : PaymentStatus) (y : Option String) :
    saveSale { s with paymentStatus := x, notes := y } = some { s with notes := y } := by
  obtain ⟨hfix, hval⟩ := saveSale_fixpoint h
  simp only [saveSale]
  rw [saveHook_status_notes s x y, hfix, validSale_notes s y, hval]
  simp

/-- Unfolding the per-item quantity total over a first line. -/
theorem sumQtyFor_cons (l : SaleLine) (ls : List SaleLine) (i : ℕ) :
    sumQtyFor (l :: ls) i = (if l.item = i then l.quantity else 0) + sumQtyFor ls i := by
  by_cases h : l.item = i
  · simp [sumQtyFor, List.filter_cons, h]
  · simp [sumQtyFor, List.filter_cons, h]

/-- The refund restore loop, observed per item id: every existing item
gains exactly the total quantity its id carries across the sale lines;
missing ids stay missing. -/
theorem restore_fold_lookup (ls : List SaleLine) :
    ∀ (items : ItemStore) (i : ℕ),
    lookupId (ls.foldl restoreLine items) i =
      (lookupId items i).map (fun v => { v with stock := v.stock + sumQtyFor ls i }) := by
  induction ls with
  | nil =>
      intro items i
      simp only [List.foldl_nil]
      cases h : lookupId items i with
      | none => simp
      | some v => cases v; simp [sumQtyFor]
  | cons l ls ih =>
      intro items i
      rw [List.foldl_cons, ih (restoreLine items l) i]
      unfold restoreLine
      rw [lookupId_updateId]
      by_cases hil : i = l.item
      · rw [if_pos hil, hil]
        cases hv : lookupId items l.item with
        | none => simp
        | some v =>
            cases v
            simp [sumQtyFor_cons, hil, add_assoc]
      · rw [if_neg hil, sumQtyFor_cons]
        have hli : ¬ l.item = i := fun hh => hil hh.symm
        simp [hli]

/-- Processing one line preserves non-negative stock: the decrement is
guarded by the availability check. -/
theorem processLine_nonneg {uid : ℕ} {st : ItemStore} {l : ReqLine}
    {st1 : ItemStore} {sl : SaleLine} (hn : itemsNonneg st)
    (h : processLine uid st l = .ok (st1, sl)) : itemsNonneg st1 := by
  obtain ⟨-, hdec, it, hlk, -, -, hle⟩ := processLine_ok h
  subst hdec
  intro p hp
  rcases mem_updateId st l.productId _ p (by simpa [decLine] using hp) with
    hmem | ⟨v, hv, rfl⟩
  · exact hn p hmem
  · have hvit : v = it := Option.some.inj (hv.symm.trans hlk)
    subst hvit
    simpa using sub_nonneg.mpr hle

/-- The whole checkout loop preserves non-negative stock, stopping on a
failing line included. -/
theorem processItems_nonneg {uid : ℕ} {ls : List ReqLine} :
    ∀ {st : ItemStore}, itemsNonneg st → itemsNonneg (processItems uid st ls).1 := by
  induction ls with
  | nil => intro st hn; simpa [processItems] using hn
  | cons l ls ih =>
      intro st hn
      cases hpl : processLine uid st l with
      | error e => rw [processItems_cons_err hpl]; exact hn
      | ok pr =>
          obtain ⟨st1, sl⟩ := pr
          rw [processItems_cons_ok hpl]
          have hn1 : itemsNonneg (processItems uid st1 ls).1 :=
            ih (processLine_nonneg hn hpl)
          cases hpi : processItems uid st1 ls with
          | mk st2 r =>
              rw [hpi] at hn1
              cases r with
              | error e => simpa using hn1
              | ok pr2 =>
                  obtain ⟨a, b⟩ := pr2
                  simpa using hn1

/-- The store a checkout returns is either untouched (early input
rejections) or exactly what the item loop left behind. -/
theorem checkout_fst (users : UserStore) (role : Role) (uid : ℕ) (now : ℤ)
    (fresh : String) (st : ItemStore) (req : CheckoutReq) :
    (checkout users role uid now fresh st req).1 = st ∨
    (checkout users role uid now fresh st req).1 = (processItems uid st req.items).1 := by
  unfold checkout
  split
  · exact Or.inl rfl
  · split
    case _ t p =>
        rcases hpi : processItems uid st req.items with ⟨st1, r⟩
        cases r with
        | error e => exact Or.inr rfl
        | ok pr =>
            obtain ⟨sls, sub⟩ := pr
            right
            dsimp only
            split
            · rfl
            · split <;> rfl
    all_goals exact Or.inl rfl

/-- The refund restore loop preserves non-negative stock when every
restored quantity is non-negative. -/
theorem restore_fold_nonneg {ls : List SaleLine} :
    ∀ {items : ItemStore}, (∀ l ∈ ls, 0 ≤ l.quantity) → itemsNonneg items →
    itemsNonneg (ls.foldl restoreLine items) := by
  induction ls with
  | nil => intro items _ hn; simpa using hn
  | cons l ls ih =>
      intro items hq hn
      rw [List.foldl_cons]
      refine ih (fun x hx => hq x (List.mem_cons_of_mem l hx)) ?_
      intro p hp
      rcases mem_updateId items l.item _ p (by simpa [restoreLine] using hp) with
        hmem | ⟨v, hv, rfl⟩
      · exact hn p hmem
      · have h0 : 0 ≤ v.stock := hn (l.item, v) (lookupId_mem _ _ _ hv)
        have h1 : 0 ≤ l.quantity := hq l (List.mem_cons_self l ls)
        simpa using add_nonneg h0 h1

/-- A validated sale only carries lines with quantity at least 1. -/
theorem validSale_lines {s : Sale} (h : validSale s = true) :
    ∀ l ∈ s.items, 0 ≤ l.quantity := by
  intro l hl
  simp only [validSale, Bool.and_eq_true, List.all_eq_true, decide_eq_true_eq] at h
  exact le_trans zero_le_one (h.2 l hl).1.2

/-- A stock adjustment preserves non-negative stock: `set`/`add` work
with the truncation of a quantity already validated non-negative, and
`subtract` clamps at zero. -/
theorem adjustStock_nonneg (users : UserStore) (role : Role) (uid : ℕ)
    (st : ItemStore) (iid : ℕ) (q : ℚ) (op : String) (hn : itemsNonneg st) :
    itemsNonneg (adjustStock users role uid st iid q op).1 := by
  unfold adjustStock
  split
  · exact hn
  next hq =>
    push_neg at hq
    have hqi : (0 : ℚ) ≤ ((Int.floor q : ℤ) : ℚ) :=
      Int.cast_nonneg.mpr (Int.floor_nonneg.mpr hq)
    split
    · exact hn
    next f =>
      split
      next it heq =>
        split
        next =>
          intro p hp
          rcases mem_updateId st iid _ p hp with hmem | ⟨v, hv, rfl⟩
          · exact hn p hmem
          · have hstock : 0 ≤ it.stock := hn (iid, it) (lookupId_mem _ _ _ heq)
            by_cases hadd : op = "add"
            · simpa [hadd] using add_nonneg hstock hqi
            · by_cases hsub : op = "subtract"
              · simp [hadd, hsub]
              · simpa [hadd, hsub] using hqi
        next => exact hn
      next => exact hn

/-- A refund preserves non-negative stock: it only adds back the
validated (at least 1) line quantities. -/
theorem refund_nonneg_items (role : Role) (uid : ℕ) (sales : SaleStore)
    (items : ItemStore) (sid : ℕ) (reason : String) (hn : itemsNonneg items) :
    itemsNonneg (refund role uid sales items sid reason).2.1 := by
  unfold refund
  split
  next s heq =>
    split
    next hcond =>
      split
      next s2 hsv =>
        have hval : validSale s2 = true := by
          rw [(saveSale_eq hsv).1]
          exact (saveSale_eq hsv).2
        exact restore_fold_nonneg (validSale_lines hval) hn
      next => exact hn
    next => exact hn
  next => exact hn

/-- Unrolling the `$group` fold: each aggregate field over any
accumulator equals the accumulator's field plus the standalone total
over the documents. -/
theorem todayAgg_fold (sales : List Sale) :
    ∀ acc : TodayAgg,
    (sales.foldl todayAggStep acc).totalRevenue =
      acc.totalRevenue + (sales.map Sale.paidAmount).sum ∧
    (sales.foldl todayAggStep acc).totalOutstanding =
      acc.totalOutstanding + (sales.map (fun s => max 0 (s.total - s.paidAmount))).sum ∧
    (sales.foldl todayAggStep acc).partialPaymentsCount =
      acc.partialPaymentsCount +
        sales.countP (fun s => decide (0 < s.paidAmount ∧ s.paidAmount < s.total)) := by
  induction sales with
  | nil => intro acc; simp
  | cons s sales ih =>
      intro acc
      rw [List.foldl_cons]
      obtain ⟨h1, h2, h3⟩ := ih (todayAggStep acc s)
      refine ⟨?_, ?_, ?_⟩
      · rw [h1]; simp [todayAggStep, add_assoc]
      · rw [h2]; simp [todayAggStep, add_assoc]
      · rw [h3]
        simp only [todayAggStep, List.countP_cons]
        by_cases hp : 0 < s.paidAmount ∧ s.paidAmount < s.total
        · simp [hp]; omega
        · simp [hp]

/-- Dissection of a successful checkout: the request carried a total and
a paid amount, the item loop succeeded leaving the returned store, the
owner resolution succeeded, and the response sale is the persisted form
of exactly the document the route assembles. -/
theorem checkout_ok {users : UserStore} {role : Role} {uid : ℕ} {now : ℤ}
    {fresh : String} {st stRes : ItemStore} {req : CheckoutReq} {s2 : Sale}
    (h : checkout users role uid now fresh st req = (stRes, .ok s2)) :
    ∃ t p sls sub mgr fc,
      req.total = some t ∧ req.paidAmount = some p ∧
      processItems uid st req.items = (stRes, .ok (sls, sub)) ∧
      resolveScopeIds users role uid req.cashierId = .ok (mgr, fc) ∧
      saveSale
        { receiptNumber := jsOrOptStr req.receiptNumber fresh
          items := sls
          subtotal := sub
          tax := req.tax
          discount := req.discount
          total := jsOrQ t sub
          paymentStatus :=
            if jsOrQ p 0 < jsOrQ t sub then .partialPaid
            else if jsOrQ p 0 = 0 then .pending else .completed
          paidAmount := jsOrQ p 0
          change := some (jsOrOptQ req.change (max 0 (jsOrQ p 0 - jsOrQ t sub)))
          notes := req.notes
          userId := uid
          managerId := mgr
          cashierId := fc
          saleDate := now } = some s2 := by
  unfold checkout at h
  split at h
  · exact absurd (congrArg Prod.snd h) (by simp)
  · split at h
    next t p ht hp =>
      rcases hpi : processItems uid st req.items with ⟨st1, r⟩
      rw [hpi] at h
      cases r with
      | error e => exact absurd (congrArg Prod.snd h) (by simp)
      | ok pr =>
          obtain ⟨sls, sub⟩ := pr
          dsimp only at h
          rcases hres : resolveScopeIds users role uid req.cashierId with e | ⟨mgr, fc⟩
          · rw [hres] at h
            exact absurd (congrArg Prod.snd h) (by simp)
          · rw [hres] at h
            dsimp only at h
            split at h
            next s3 hsv =>
              have h1 := congrArg Prod.fst h
              have h2 := congrArg Prod.snd h
              simp only [Prod.fst, Prod.snd] at h1 h2
              have h3 : s3 = s2 := by simpa using h2
              refine ⟨t, p, sls, sub, mgr, fc, ht, hp, ?_, rfl, ?_⟩
              · rw [h1]
              · rw [hsv, h3]
            next hsv => exact absurd (congrArg Prod.snd h) (by simp)
    all_goals exact absurd (congrArg Prod.snd h) (by simp)

/-- Claim C5: for every persisted sale, the subtotal equals the sum of
its line items' subtotals and the total equals subtotal + tax − discount;
the pre-save hook recomputes both on every persist, so they hold even
when the checkout request supplied its own total. -/
theorem persisted_totals_invariant (s s2 : Sale) (h : saveSale s = some s2) :
    s2.subtotal = (s2.items.map SaleLine.subtotal).sum ∧
    s2.total = s2.subtotal + s2.tax - s2.discount := by
  obtain ⟨rfl, -⟩ := saveSale_eq h
  exact ⟨rfl, rfl⟩

/-- Witness for C5: the tax-5, discount-2, one-line sample sale persists
with subtotal 20 and total 23 = 20 + 5 − 2, satisfying both equations. -/
theorem persisted_totals_invariant_witness :
    sampleSaved.subtotal = (sampleSaved.items.map SaleLine.subtotal).sum ∧
    sampleSaved.total = sampleSaved.subtotal + sampleSaved.tax - sampleSaved.discount :=
  persisted_totals_invariant sampleSale sampleSaved
    (by norm_num [saveSale, saveHook, validSale, derivePaymentStatus,
      sampleSale, sampleSaved])

/-- Claim C6: every persisted sale whose status is not refunded/failed
carries the derived payment status — pending when nothing was paid,
"partial" when the paid amount is positive but below the (recomputed)
total, completed when it covers the total (with the claim's clauses read
as the ordered piecewise rule both the spec and the hook use, so that
pending takes precedence at paidAmount = 0); this holds after every
persist because the hook rederives the status unconditionally against
the recomputed total. -/
theorem persisted_status_derivation (s s2 : Sale) (h : saveSale s = some s2)
    (hr : s2.paymentStatus ≠ .refunded) (hf : s2.paymentStatus ≠ .failed) :
    (s2.paidAmount = 0 → s2.paymentStatus = .pending) ∧
    (0 < s2.paidAmount → s2.paidAmount < s2.total → s2.paymentStatus = .partialPaid) ∧
    (0 < s2.paidAmount → s2.total ≤ s2.paidAmount → s2.paymentStatus = .completed) := by
  obtain ⟨rfl, -⟩ := saveSale_eq h
  simp only [saveHook, derivePaymentStatus]
  refine ⟨?_, ?_, ?_⟩
  · intro h0
    rw [if_pos h0]
  · intro h1 h2
    rw [if_neg (by linarith), if_neg (by linarith)]
  · intro h1 h2
    rw [if_neg (by linarith), if_pos (by linarith)]

/-- Witness for C6: the sample persisted sale has paid 15 on total 23
and indeed carries status "partial"; the other two implications hold
vacuously there. -/
theorem persisted_status_derivation_witness :
    (sampleSaved.paidAmount = 0 → sampleSaved.paymentStatus = .pending) ∧
    (0 < sampleSaved.paidAmount → sampleSaved.paidAmount < sampleSaved.total →
      sampleSaved.paymentStatus = .partialPaid) ∧
    (0 < sampleSaved.paidAmount → sampleSaved.total ≤ sampleSaved.paidAmount →
      sampleSaved.paymentStatus = .completed) :=
  persisted_status_derivation sampleSale sampleSaved
    (by norm_num [saveSale, saveHook, validSale, derivePaymentStatus,
      sampleSale, sampleSaved])
    (by decide) (by decide)

/-- Claim C2 (code bug): the refunded status is not sticky.  Persisting a
fully paid sale that was explicitly marked refunded rederives its status
to completed — the hook's derivation has no guard for refunded/failed —
and consequently the refund route itself returns (and stores) a sale
whose paymentStatus is completed, not refunded. -/
theorem refunded_status_not_sticky :
    (saveSale { completedSale with paymentStatus := .refunded }).map Sale.paymentStatus
      = some .completed ∧
    ((refund .manager 1 sales0 items0 100 "Damaged").2.2.toOption.map Sale.paymentStatus)
      = some .completed ∧
    PaymentStatus.completed ≠ .refunded := by
  refine ⟨?_, ?_, by decide⟩
  · norm_num [saveSale, saveHook, validSale, derivePaymentStatus, completedSale]
  · norm_num [refund, refundUpdate, lookupId, sales0, completedSale, scopeMatch,
      appendReason, saveSale, saveHook, validSale, derivePaymentStatus]
    exact ⟨_, rfl, rfl⟩

/-- Claim C7: over any scope and window, the home-dashboard aggregation
fields agree with the standalone totals — totalRevenue is the sum of the
matched sales' paid amounts, totalOutstanding the sum of the clamped
unpaid balances, and partialPaymentsCount the number of strictly partial
payments; in the spec's scenario two matched sales paying 500 and 6000
yield totalRevenue 6500. -/
theorem home_dashboard_aggregation (role : Role) (uid : ℕ) (a b : ℤ)
    (sales : List Sale) :
    ((homeTodayAgg (homeMatches role uid a b sales)).totalRevenue =
      ((homeMatches role uid a b sales).map Sale.paidAmount).sum) ∧
    ((homeTodayAgg (homeMatches role uid a b sales)).totalOutstanding =
      ((homeMatches role uid a b sales).map
        (fun s => max 0 (s.total - s.paidAmount))).sum) ∧
    ((homeTodayAgg (homeMatches role uid a b sales)).partialPaymentsCount =
      (homeMatches role uid a b sales).countP
        (fun s => decide (0 < s.paidAmount ∧ s.paidAmount < s.total))) ∧
    (homeTodayAgg (homeMatches .manager 1 0 10 [sale500, sale6000])).totalRevenue
      = 6500 := by
  obtain ⟨h1, h2, h3⟩ := todayAgg_fold (homeMatches role uid a b sales) emptyAgg
  refine ⟨?_, ?_, ?_, ?_⟩
  · rw [homeTodayAgg, h1]; simp [emptyAgg]
  · rw [homeTodayAgg, h2]; simp [emptyAgg]
  · rw [homeTodayAgg, h3]; simp [emptyAgg]
  · norm_num [homeTodayAgg, homeMatches, homeUserFilter, inWindow, sale500,
      sale6000, todayAggStep, emptyAgg]

/-- Claim C8 counterexample: the home dashboard's day-over-day
salesGrowth yields 0 — not the claimed 100 — when yesterday's revenue is
0 and today's is positive, unlike `calculateGrowth`. -/
theorem home_salesGrowth_zero_baseline_cex :
    homeSalesGrowth 50 0 = 0 ∧ calculateGrowth 50 0 = 100 ∧ (0 : ℚ) ≠ 100 := by
  refine ⟨?_, ?_, by norm_num⟩
  · norm_num [homeSalesGrowth]
  · norm_num [calculateGrowth]

/-- Claim C8 (amended): `calculateGrowth` — used by the period
dashboard's growth fields — satisfies the spec's piecewise rule exactly,
including growth(0,0) = 0, growth(50,0) = 100, growth(150,100) = 50; the
home dashboard's day-over-day salesGrowth agrees with the rule only when
yesterday's revenue is positive, and is 0 (not 100) on a zero
yesterday. -/
theorem growth_rule_amended :
    (∀ c p : ℚ, calculateGrowth c p = specGrowthRule c p) ∧
    (∀ t y : ℚ, 0 < y → homeSalesGrowth t y = specGrowthRule t y) ∧
    (∀ t : ℚ, homeSalesGrowth t 0 = 0) ∧
    calculateGrowth 0 0 = 0 ∧ calculateGrowth 50 0 = 100 ∧
    calculateGrowth 150 100 = 50 := by
  refine ⟨fun c p => rfl, ?_, ?_, by norm_num [calculateGrowth],
    by norm_num [calculateGrowth], by norm_num [calculateGrowth]⟩
  · intro t y hy
    unfold homeSalesGrowth specGrowthRule
    rw [if_pos hy, if_neg (ne_of_gt hy)]
  · intro t
    unfold homeSalesGrowth
    rw [if_neg (lt_irrefl 0)]

/-- Witness for C8 (amended): at today 150, yesterday 100 the home
salesGrowth follows the rule and equals calculateGrowth's value. -/
theorem growth_rule_amended_witness :
    (0 : ℚ) < 100 ∧ homeSalesGrowth 150 100 = specGrowthRule 150 100 :=
  ⟨by norm_num, growth_rule_amended.2.1 150 100 (by norm_num)⟩

/-- Claim C1 counterexample: a checkout whose second line fails on stock
(3 available, 10 requested) returns an error, yet the first line's item
has already been decremented from 5 to 4 in the stored inventory — the
claimed all-or-nothing behaviour does not hold. -/
theorem checkout_partial_stock_mutation_cex :
    checkout users0 .manager 10 0 "R1" st0 reqC1 =
      ([(1, { itemA with stock := 4 }), (2, itemB)],
        .error (.insufficientStock "B" 3 10)) ∧
    (lookupId [(1, { itemA with stock := 4 }), (2, itemB)] 1).map Item.stock
      = some 4 ∧
    (lookupId st0 1).map Item.stock = some 5 ∧
    some (4 : ℚ) ≠ some (5 : ℚ) := by
  refine ⟨?_, by norm_num [lookupId, itemA], by norm_num [lookupId, st0, itemA],
    by norm_num⟩
  norm_num [checkout, reqC1, processItems, processLine, lookupId, st0, users0,
    lineA, lineB, itemA, itemB, decLine, updateId, jsOrOptQ, jsOrQ, jsOrOptStr]
  decide

/-- Claim C1 (amended): checkout mutates stock per line as the loop
validates it, not transactionally.  When the lines before some failing
line all process, the request fails with that line's error while the
returned inventory equals the initial one with each earlier line's
decrement still committed (a left fold of the per-line decrements over
the successful prefix); symmetrically, a fully successful checkout's
inventory is the fold over all lines.  Stock is thus decremented for
every processed line even when the sale as a whole fails. -/
theorem checkout_not_all_or_nothing :
    (∀ (users : UserStore) (role : Role) (uid : ℕ) (now : ℤ) (fresh : String)
      (st : ItemStore) (req : CheckoutReq) (pre : List ReqLine) (l : ReqLine)
      (post : List ReqLine) (r : List SaleLine × ℚ) (e : CheckoutErr)
      (t p : ℚ),
      req.items = pre ++ l :: post →
      req.total = some t → req.paidAmount = some p →
      (processItems uid st pre).2 = .ok r →
      processLine uid (processItems uid st pre).1 l = .error e →
      checkout users role uid now fresh st req = (pre.foldl decLine st, .error e)) ∧
    (∀ (users : UserStore) (role : Role) (uid : ℕ) (now : ℤ) (fresh : String)
      (st stRes : ItemStore) (req : CheckoutReq) (s2 : Sale),
      checkout users role uid now fresh st req = (stRes, .ok s2) →
      stRes = req.items.foldl decLine st) := by
  constructor
  · intro users role uid now fresh st req pre l post r e t p hitems ht hp hpre hfail
    have happ := @processItems_append_fail uid pre l post e st r hpre hfail
    have hfold : (processItems uid st pre).1 = pre.foldl decLine st := by
      rcases hpi : processItems uid st pre with ⟨st2, r2⟩
      obtain ⟨sls, sub⟩ := r
      rw [hpi] at hpre
      have hr2 : r2 = .ok (sls, sub) := hpre
      subst hr2
      exact (processItems_ok hpi).1
    unfold checkout
    rw [hitems, ht, hp]
    rw [if_neg (by simp : ¬ (pre ++ l :: post = []))]
    dsimp only
    rw [happ]
    dsimp only
    rw [hfold]
  · intro users role uid now fresh st stRes req s2 h
    obtain ⟨t, p, sls, sub, mgr, fc, -, -, hpi, -, -⟩ := checkout_ok h
    exact (processItems_ok hpi).1

/-- Witness for C1 (amended): in the two-line scenario the first line's
decrement is committed and the checkout fails with the second line's
stock error; and the one-line full success folds its decrement. -/
theorem checkout_not_all_or_nothing_witness :
    (checkout users0 .manager 10 0 "R1" st0 reqC1 =
      ([lineA].foldl decLine st0, .error (.insufficientStock "B" 3 10))) ∧
    ([(1, { itemA with stock := 3 })] : ItemStore) = reqC4.items.foldl decLine st4 := by
  constructor
  · exact checkout_not_all_or_nothing.1 users0 .manager 10 0 "R1" st0 reqC1
      [lineA] lineB []
      ([{ item := 1, name := "A", price := 10, quantity := 1, subtotal := 10 }], 10)
      (.insufficientStock "B" 3 10) 10 10
      (by norm_num [reqC1]) (by norm_num [reqC1]) (by norm_num [reqC1])
      (by norm_num [processItems, processLine, lookupId, st0, lineA, itemA,
        decLine, updateId, jsOrOptQ, jsOrQ, jsOrOptStr])
      (by norm_num [processItems, processLine, lookupId, st0, lineA, lineB,
        itemA, itemB, decLine, updateId, jsOrOptQ, jsOrQ, jsOrOptStr])
  · exact checkout_not_all_or_nothing.2 users0 .manager 10 0 "R1" st4
      [(1, { itemA with stock := 3 })] reqC4 saleC4
      (by norm_num [checkout, reqC4, processItems, processLine, lookupId, st4,
        users0, lineC, itemA, decLine, updateId, jsOrOptQ, jsOrQ, jsOrOptStr,
        resolveScopeIds, saveSale, saveHook, validSale, derivePaymentStatus,
        saleC4])

/-- Claim C4 counterexample: a checkout declaring `change: 7` while
paying 20 on a 20 total persists change 7, not
max(0, paidAmount − total) = 0 — the client-supplied change is honoured
verbatim. -/
theorem client_change_honoured_cex :
    (checkout users0 .manager 10 0 "R1" st4 reqC4).2 = .ok saleC4 ∧
    saleC4.change = some 7 ∧
    max 0 (saleC4.paidAmount - saleC4.total) = 0 ∧
    some (7 : ℚ) ≠ some (0 : ℚ) := by
  refine ⟨?_, rfl, by norm_num [saleC4], by norm_num⟩
  norm_num [checkout, reqC4, processItems, processLine, lookupId, st4, users0,
    lineC, itemA, decLine, updateId, jsOrOptQ, jsOrQ, jsOrOptStr,
    resolveScopeIds, saveSale, saveHook, validSale, derivePaymentStatus, saleC4]

/-- Claim C4 (amended): the persisted change of a checkout-created sale
is the client's change whenever the request supplied a truthy one, and
only otherwise max(0, paidAmount − T) where T is the request's truthy
total or else the computed items subtotal; the pre-save derivation
computes change only when the field is undefined (which never happens at
checkout, where the route always assigns it) and never overwrites a
defined change. -/
theorem checkout_change_formula :
    (∀ (users : UserStore) (role : Role) (uid : ℕ) (now : ℤ) (fresh : String)
      (st stRes : ItemStore) (req : CheckoutReq) (s2 : Sale) (t p : ℚ),
      req.total = some t → req.paidAmount = some p →
      checkout users role uid now fresh st req = (stRes, .ok s2) →
      s2.change = some (jsOrOptQ req.change (max 0 (jsOrQ p 0 - jsOrQ t s2.subtotal)))) ∧
    (∀ s : Sale, s.change = none →
      (saveHook s).change =
        some (max 0 (s.paidAmount -
          ((s.items.map SaleLine.subtotal).sum + s.tax - s.discount)))) ∧
    (∀ (s : Sale) (c : ℚ), s.change = some c → (saveHook s).change = some c) := by
  refine ⟨?_, ?_, ?_⟩
  · intro users role uid now fresh st stRes req s2 t p ht hp h
    obtain ⟨t2, p2, sls, sub, mgr, fc, ht2, hp2, hpi, -, hsv⟩ := checkout_ok h
    obtain rfl : t2 = t := Option.some.inj (ht2.symm.trans ht)
    obtain rfl : p2 = p := Option.some.inj (hp2.symm.trans hp)
    obtain ⟨rfl, -⟩ := saveSale_eq hsv
    have hsub : sub = (sls.map SaleLine.subtotal).sum := (processItems_ok hpi).2
    simp only [saveHook]
    rw [← hsub]
  · intro s hc
    simp only [saveHook, hc]
  · intro s c hc
    simp only [saveHook, hc]

/-- Witness for C4 (amended): the `reqC4` checkout (client change 7)
persists change 7 = jsOr-of the request change; and on the sample sale
with undefined change the hook fills in max(0, 15 − 23) = 0. -/
theorem checkout_change_formula_witness :
    saleC4.change =
      some (jsOrOptQ reqC4.change (max 0 (jsOrQ 20 0 - jsOrQ 20 saleC4.subtotal))) ∧
    (saveHook sampleSale).change =
      some (max 0 (sampleSale.paidAmount -
        ((sampleSale.items.map SaleLine.subtotal).sum + sampleSale.tax -
          sampleSale.discount))) := by
  constructor
  · exact checkout_change_formula.1 users0 .manager 10 0 "R1" st4
      [(1, { itemA with stock := 3 })] reqC4 saleC4 20 20
      (by norm_num [reqC4]) (by norm_num [reqC4])
      (by norm_num [checkout, reqC4, processItems, processLine, lookupId, st4,
        users0, lineC, itemA, decLine, updateId, jsOrOptQ, jsOrQ, jsOrOptStr,
        resolveScopeIds, saveSale, saveHook, validSale, derivePaymentStatus,
        saleC4])
  · exact checkout_change_formula.2.1 sampleSale (by norm_num [sampleSale])

/-- Claim C3: over a store of persisted sales, the refund succeeds
exactly when the sale id resolves, the sale matches the caller's
role-based ownership filter, and its current payment status is completed
(the 404 "not found or cannot be refunded" covers everything else); on
success the stored sale's notes gain the appended refund reason and
every item still in the inventory gains back exactly the total quantity
its id carries across the sale's lines. -/
theorem refund_spec (role : Role) (uid : ℕ) (sales : SaleStore)
    (items : ItemStore) (sid : ℕ) (reason : String)
    (hP : salesPersisted sales) :
    ((∃ s2, (refund role uid sales items sid reason).2.2 = .ok s2) ↔
      (∃ s, lookupId sales sid = some s ∧ scopeMatch role uid s = true ∧
        s.paymentStatus = .completed)) ∧
    (∀ s, lookupId sales sid = some s → scopeMatch role uid s = true →
      s.paymentStatus = .completed →
      (refund role uid sales items sid reason).2.2 =
        .ok { s with notes := appendReason s.notes reason } ∧
      (∀ i v, lookupId items i = some v →
        lookupId (refund role uid sales items sid reason).2.1 i =
          some { v with stock := v.stock + sumQtyFor s.items i })) := by
  cases hlk : lookupId sales sid with
  | none =>
      have hr : refund role uid sales items sid reason =
          (sales, items, .error .notRefundable) := by
        unfold refund
        rw [hlk]
      constructor
      · constructor
        · rintro ⟨s2, hs2⟩
          rw [hr] at hs2
          exact absurd hs2 (by simp)
        · rintro ⟨s, hs, -, -⟩
          exact absurd hs (by simp)
      · intro s hs
        exact absurd hs (by simp)
  | some s0 =>
      have hsP : saveSale s0 = some s0 := hP (sid, s0) (lookupId_mem _ _ _ hlk)
      by_cases hcond : scopeMatch role uid s0 = true ∧ s0.paymentStatus = .completed
      · have hsv : saveSale (refundUpdate s0 reason) =
            some { s0 with notes := appendReason s0.notes reason } :=
          saveSale_statusOverwritten hsP .refunded (appendReason s0.notes reason)
        have hr : refund role uid sales items sid reason =
            (updateId sales sid (fun _ => { s0 with notes := appendReason s0.notes reason }),
             ({ s0 with notes := appendReason s0.notes reason } : Sale).items.foldl
               restoreLine items,
             .ok { s0 with notes := appendReason s0.notes reason }) := by
          unfold refund
          rw [hlk]
          dsimp only
          rw [if_pos hcond, hsv]
        constructor
        · constructor
          · intro _
            exact ⟨s0, rfl, hcond.1, hcond.2⟩
          · intro _
            exact ⟨{ s0 with notes := appendReason s0.notes reason }, by rw [hr]⟩
        · intro s hs h1 h2
          obtain rfl : s0 = s := Option.some.inj hs
          constructor
          · rw [hr]
          · intro i v hv
            rw [hr]
            dsimp only
            rw [restore_fold_lookup, hv]
            rfl
      · have hr : refund role uid sales items sid reason =
            (sales, items, .error .notRefundable) := by
          unfold refund
          rw [hlk]
          dsimp only
          rw [if_neg hcond]
        constructor
        · constructor
          · rintro ⟨s2, hs2⟩
            rw [hr] at hs2
            exact absurd hs2 (by simp)
          · rintro ⟨s, hs, h1, h2⟩
            obtain rfl : s0 = s := Option.some.inj hs
            exact absurd ⟨h1, h2⟩ hcond
        · intro s hs h1 h2
          obtain rfl : s0 = s := Option.some.inj hs
          exact absurd ⟨h1, h2⟩ hcond

/-- Witness for C3: refunding the completed sale 100 as its manager
succeeds, stores the appended refund reason, and restores item 1's stock
by the 2 units its sale line records. -/
theorem refund_spec_witness :
    (refund .manager 1 sales0 items0 100 "Damaged").2.2 =
      .ok { completedSale with notes := appendReason completedSale.notes "Damaged" } ∧
    lookupId (refund .manager 1 sales0 items0 100 "Damaged").2.1 1 =
      some { itemA1 with stock := itemA1.stock + sumQtyFor completedSale.items 1 } := by
  have hP : salesPersisted sales0 := by
    intro p hp
    simp only [sales0, List.mem_singleton] at hp
    subst hp
    norm_num [saveSale, saveHook, validSale, derivePaymentStatus, completedSale]
  have h := (refund_spec .manager 1 sales0 items0 100 "Damaged" hP).2 completedSale
    (by norm_num [lookupId, sales0]) (by decide) (by decide)
  exact ⟨h.1, h.2 1 itemA1 (by norm_num [lookupId, items0])⟩

/-- Claim C9 counterexample: cashier 2 is linked to manager 1, and
`saleX` belongs to manager 1's pool (rung by another cashier), yet the
sales-list query for cashier 2 excludes it; likewise checkout's item
lookup for cashier 2 rejects `itemX` even though it belongs to manager
1's inventory, because the lookup filters on the requester's own
userId. -/
theorem cashier_scope_cex :
    lookupId users9 2 = some { role := .cashier, managerId := some 1 } ∧
    saleX.managerId = some 1 ∧
    salesListQuery .cashier 2 none saleX = false ∧
    itemX.managerId = 1 ∧
    processLine 2 stX lineX = .error (.itemNotFound 5) := by
  refine ⟨by decide, by decide, by decide, by decide, ?_⟩
  norm_num [processLine, lookupId, stX, lineX, itemX]

/-- Claim C9 (amended): only the item-listing endpoint resolves a linked
cashier to the shared manager pool (its filter is exactly "the manager's
active items"); the sales-list query for a cashier matches only sales
whose cashierId is the cashier's own id, and checkout resolves each line
against an item owned by the requesting user's own userId — not the
linked manager's inventory. -/
theorem cashier_scope_amended :
    (∀ (users : UserStore) (uid : ℕ) (u : User) (m : ℕ),
      lookupId users uid = some u → u.managerId = some m →
      ∃ f, roleItemQuery users .cashier uid = .ok f ∧
        ∀ it : Item, f it = (it.managerId == m && it.isActive)) ∧
    (∀ (uid : ℕ) (s : Sale),
      salesListQuery .cashier uid none s = (s.cashierId == some uid)) ∧
    (∀ (uid : ℕ) (st : ItemStore) (l : ReqLine) (st1 : ItemStore) (sl : SaleLine),
      processLine uid st l = .ok (st1, sl) →
      ∃ it, lookupId st l.productId = some it ∧ it.userId = uid) := by
  refine ⟨?_, fun uid s => rfl, ?_⟩
  · intro users uid u m hu hm
    refine ⟨fun it => it.managerId == m && it.isActive, ?_, fun it => rfl⟩
    unfold roleItemQuery
    rw [hu]
    dsimp only
    rw [hm]
  · intro uid st l st1 sl h
    obtain ⟨-, -, it, hlk, huid, -, -⟩ := processLine_ok h
    exact ⟨it, hlk, huid⟩

/-- Witness for C9 (amended): the linked cashier 2 gets manager 1's item
filter; the sales query for cashier 7 tests cashierId = 7; the
successful manager checkout line resolves an item with the requester's
own userId 10. -/
theorem cashier_scope_amended_witness :
    (∃ f, roleItemQuery users9 .cashier 2 = .ok f ∧
      ∀ it : Item, f it = (it.managerId == 1 && it.isActive)) ∧
    salesListQuery .cashier 7 none saleX = (saleX.cashierId == some 7) ∧
    (∃ it, lookupId st0 lineA.productId = some it ∧ it.userId = 10) := by
  refine ⟨cashier_scope_amended.1 users9 2 ⟨.cashier, some 1⟩ 1 (by decide) rfl,
    cashier_scope_amended.2.1 7 saleX,
    cashier_scope_amended.2.2 10 st0 lineA
      [(1, { itemA with stock := 4 }), (2, itemB)]
      { item := 1, name := "A", price := 10, quantity := 1, subtotal := 10 } ?_⟩
  norm_num [processLine, lookupId, st0, lineA, itemA, decLine, updateId,
    jsOrOptQ, jsOrQ, jsOrOptStr]

/-- Claim C10: every stock-mutating operation preserves non-negative
stock — checkout decrements only behind the availability check, the
stock route's `subtract` clamps at 0 while `set`/`add` use the
validated non-negative quantity, and refund only adds back validated
line quantities. -/
theorem stock_nonneg_invariant :
    (∀ (users : UserStore) (role : Role) (uid : ℕ) (now : ℤ) (fresh : String)
      (st : ItemStore) (req : CheckoutReq), itemsNonneg st →
      itemsNonneg (checkout users role uid now fresh st req).1) ∧
    (∀ (users : UserStore) (role : Role) (uid : ℕ) (st : ItemStore)
      (iid : ℕ) (q : ℚ) (op : String), itemsNonneg st →
      itemsNonneg (adjustStock users role uid st iid q op).1) ∧
    (∀ (role : Role) (uid : ℕ) (sales : SaleStore) (items : ItemStore)
      (sid : ℕ) (reason : String), itemsNonneg items →
      itemsNonneg (refund role uid sales items sid reason).2.1) := by
  refine ⟨?_, fun users role uid st iid q op hn =>
      adjustStock_nonneg users role uid st iid q op hn,
    fun role uid sales items sid reason hn =>
      refund_nonneg_items role uid sales items sid reason hn⟩
  intro users role uid now fresh st req hn
  rcases checkout_fst users role uid now fresh st req with h | h
  · rw [h]; exact hn
  · rw [h]; exact processItems_nonneg hn

/-- Witness for C10: the scenario inventories are non-negative and stay
so across the failing two-line checkout, a `subtract` adjustment of 5 on
a stock of 5, and the refund of sale 100. -/
theorem stock_nonneg_invariant_witness :
    itemsNonneg st0 ∧
    itemsNonneg (checkout users0 .manager 10 0 "R1" st0 reqC1).1 ∧
    itemsNonneg (adjustStock users0 .manager 10 st4 1 5 "subtract").1 ∧
    itemsNonneg (refund .manager 1 sales0 items0 100 "Damaged").2.1 := by
  have h0 : itemsNonneg st0 := by
    intro p hp
    simp only [st0, List.mem_cons, List.mem_singleton, List.not_mem_nil, or_false] at hp
    rcases hp with rfl | rfl
    · norm_num [itemA]
    · norm_num [itemB]
  have h4 : itemsNonneg st4 := by
    intro p hp
    simp only [st4, List.mem_singleton] at hp
    subst hp
    norm_num [itemA]
  have hi : itemsNonneg items0 := by
    intro p hp
    simp only [items0, List.mem_singleton] at hp
    subst hp
    norm_num [itemA1]
  exact ⟨h0, stock_nonneg_invariant.1 users0 .manager 10 0 "R1" st0 reqC1 h0,
    stock_nonneg_invariant.2.1 users0 .manager 10 st4 1 5 "subtract" h4,
    stock_nonneg_invariant.2.2 .manager 1 sales0 items0 100 "Damaged" hi⟩

end SmartPoint
